import Mathlib

/-!
Verification of the worldpop raster-to-NetCDF assembly script
(`src/netcdf/netcdf_creation.py`) against its natural-language
specification.

The script is shallowly embedded below.  Conventions:
* Python strings are Lean `String`s; filenames are matched character by
  character, mirroring the regular expression `STRICT_REGEX`
  (ASCII letters and digits, which is what the repository's inputs use).
* `numpy` float64 arithmetic is modelled exactly over `ℚ`; the formulas of
  `compute_coords` are polynomial, so the rational model captures their
  mathematical content.
* The dask array is modelled by its computation graph: a `Slab` is either a
  deferred zero-filled placeholder or a deferred single-band file read, and
  `Slab.materialize` runs the graph against an environment mapping file
  names to pixel values.
* `sys.exit(msg)` is modelled as `Except.error msg`; an uncaught Python
  `IndexError` (from `recs[0]` on an empty list) is modelled as
  `Except.error "list index out of range"`, the message such an exception
  carries.
-/

/-- Separator class `[_-]` of `STRICT_REGEX` (line 20). -/
def isSepB (c : Char) : Bool := c = '_' || c = '-'

/-- Letter class `[a-z]` under `re.IGNORECASE` (line 20-21): an ASCII letter. -/
def isLetterB (c : Char) : Bool := c.isAlpha

/-- Gender class `[fmt]` under `re.IGNORECASE` (line 20-21). -/
def isGenderB (c : Char) : Bool := c.toLower = 'f' || c.toLower = 'm' || c.toLower = 't'

/-- Digit class `\d` of `STRICT_REGEX` (line 20), ASCII digits. -/
def isDigitB (c : Char) : Bool := c.isDigit

/-- The literal extension `\.tif$` under `re.IGNORECASE` (line 20-21). -/
def isExt (l : List Char) : Bool :=
  match l with
  | [p, t, i, f] => p = '.' && t.toLower = 't' && i.toLower = 'i' && f.toLower = 'f'
  | _ => false

/-- The optional qualifier group `(?:[_-].+)?` followed by the extension:
a separator, then a nonempty run of non-newline characters, then `.tif`.
`.` in a Python pattern matches anything except a newline. -/
def qualOk (l : List Char) : Bool :=
  match l with
  | c :: rest =>
      isSepB c && decide (5 ≤ rest.length) && isExt (rest.drop (rest.length - 4))
        && (rest.take (rest.length - 4)).all (fun ch => ch != '\n')
  | [] => false

/-- What may legally follow the four year digits in `STRICT_REGEX`:
either the extension directly, or the optional qualifier plus extension. -/
def tailOk (l : List Char) : Bool := isExt l || qualOk l

/-- The record appended for each parsed filename (lines 49-54 of `main`):
gender lower-cased, age and year kept as their literal digit strings. -/
structure TileRecord where
  filename : String
  gender : String
  age : String
  year : String
deriving DecidableEq, Repr

/-- `STRICT_REGEX.match` plus record construction (lines 19-22 and 47-54):
`^(?P<country>[a-z]{3})[_-](?P<gender>[fmt])[_-](?P<age>\d{2})[_-](?P<year>\d{4})(?:[_-].+)?\.tif$`
with `re.IGNORECASE`. -/
def parseFilename (s : String) : Option TileRecord :=
  match s.toList with
  | c1 :: c2 :: c3 :: s1 :: g :: s2 :: a1 :: a2 :: s3 :: y1 :: y2 :: y3 :: y4 :: rest =>
      match isLetterB c1 && isLetterB c2 && isLetterB c3 && isSepB s1 && isGenderB g &&
            isSepB s2 && isDigitB a1 && isDigitB a2 && isSepB s3 &&
            isDigitB y1 && isDigitB y2 && isDigitB y3 && isDigitB y4 && tailOk rest with
      | true =>
          some { filename := s, gender := g.toLower.toString,
                 age := String.mk [a1, a2], year := String.mk [y1, y2, y3, y4] }
      | false => none
  | _ => none

/-- The thirteen leading characters of a conforming filename:
country letters, separator, gender letter, separator, two age digits,
separator, four year digits. -/
def baseChars (c1 c2 c3 s1 g s2 a1 a2 s3 y1 y2 y3 y4 : Char) : List Char :=
  [c1, c2, c3, s1, g, s2, a1, a2, s3, y1, y2, y3, y4]

/-- A conforming filename with no qualifier, e.g. `tcd_f_00_2025.tif`. -/
def plainName (c1 c2 c3 s1 g s2 a1 a2 s3 y1 y2 y3 y4 : Char) : String :=
  String.mk (baseChars c1 c2 c3 s1 g s2 a1 a2 s3 y1 y2 y3 y4 ++ ['.', 't', 'i', 'f'])

/-- A conforming filename with a qualifier, e.g. `tcd_f_00_2025_CN_100m.tif`. -/
def qualName (c1 c2 c3 s1 g s2 a1 a2 s3 y1 y2 y3 y4 s4 : Char) (q : List Char) : String :=
  String.mk (baseChars c1 c2 c3 s1 g s2 a1 a2 s3 y1 y2 y3 y4 ++ (s4 :: (q ++ ['.', 't', 'i', 'f'])))

lemma tailOk_ext : tailOk ['.', 't', 'i', 'f'] = true := by decide

lemma tailOk_qual (s4 : Char) (q : List Char) (hs4 : isSepB s4 = true) (hq : q ≠ [])
    (hnl : q.all (fun ch => ch != '\n') = true) :
    tailOk (s4 :: (q ++ ['.', 't', 'i', 'f'])) = true := by
  have hlen : (q ++ ['.', 't', 'i', 'f']).length = q.length + 4 := by simp
  have hpos : 1 ≤ q.length := List.length_pos.mpr hq
  have h5 : 5 ≤ (q ++ ['.', 't', 'i', 'f']).length := by omega
  have hidx : (q ++ ['.', 't', 'i', 'f']).length - 4 = q.length := by omega
  unfold tailOk qualOk
  dsimp only
  rw [hidx]
  simp only [List.drop_left, List.take_left, hs4, hnl, h5, decide_eq_true_eq]
  simp [isExt]

lemma parse_mk (c1 c2 c3 s1 g s2 a1 a2 s3 y1 y2 y3 y4 : Char) (tail : List Char)
    (h1 : isLetterB c1 = true) (h2 : isLetterB c2 = true) (h3 : isLetterB c3 = true)
    (h4 : isSepB s1 = true) (h5 : isGenderB g = true) (h6 : isSepB s2 = true)
    (h7 : isDigitB a1 = true) (h8 : isDigitB a2 = true) (h9 : isSepB s3 = true)
    (h10 : isDigitB y1 = true) (h11 : isDigitB y2 = true) (h12 : isDigitB y3 = true)
    (h13 : isDigitB y4 = true) (ht : tailOk tail = true) :
    parseFilename (String.mk (baseChars c1 c2 c3 s1 g s2 a1 a2 s3 y1 y2 y3 y4 ++ tail)) =
      some { filename := String.mk (baseChars c1 c2 c3 s1 g s2 a1 a2 s3 y1 y2 y3 y4 ++ tail),
             gender := g.toLower.toString, age := String.mk [a1, a2],
             year := String.mk [y1, y2, y3, y4] } := by
  have hlist : (String.mk (baseChars c1 c2 c3 s1 g s2 a1 a2 s3 y1 y2 y3 y4 ++ tail)).toList =
      c1 :: c2 :: c3 :: s1 :: g :: s2 :: a1 :: a2 :: s3 :: y1 :: y2 :: y3 :: y4 :: tail := rfl
  unfold parseFilename
  rw [hlist]
  simp only [h1, h2, h3, h4, h5, h6, h7, h8, h9, h10, h11, h12, h13, ht,
    Bool.and_self, Bool.true_and, Bool.and_true]

lemma parseFilename_filename {s : String} {r : TileRecord}
    (h : parseFilename s = some r) : r.filename = s := by
  unfold parseFilename at h
  split at h
  · split at h
    · cases h; rfl
    · cases h
  · cases h

/-- The filter of the directory scan (line 39): `f.lower().endswith(".tif")`. -/
def isTifName (f : String) : Bool :=
  ['.', 't', 'i', 'f'].isSuffixOf (f.toList.map Char.toLower)

/-- Stage 1 of `main` (lines 38-42): keep `.tif` entries, exit when none. -/
def scanStage (entries : List String) : Except String (List String) :=
  let files := entries.filter isTifName
  if files = [] then Except.error "❌ No TIFFs found" else Except.ok files

/-- The parse loop of stage 2 (lines 45-54).  The first component collects
the records of matching filenames in order; the second component collects
the messages printed by the loop — the loop body contains no `log` call and
no skip counter, so nothing is ever appended to it. -/
def parseRecords (files : List String) : List TileRecord × List String :=
  files.foldl
    (fun acc fn =>
      match parseFilename fn with
      | some r => (acc.1 ++ [r], acc.2)
      | none => acc)
    ([], [])

/-- Stage 2 including the fatal empty check (lines 55-56). -/
def parseStage (files : List String) : Except String (List TileRecord) :=
  let p := parseRecords files
  if p.1 = [] then Except.error "No files matched regex" else Except.ok p.1

/-- `years = sorted({r["year"] for r in recs})` followed by
`year = str(YEAR_FILTER) if YEAR_FILTER else years[-1]` (lines 58-59). -/
def selectYear (yearFilter : Option String) (recs : List TileRecord) : String :=
  match yearFilter with
  | some y => y
  | none =>
      (List.insertionSort (fun x y => x ≤ y) ((recs.map (fun r => r.year)).dedup)).getLastD ""

/-- `recs = [r for r in recs if r["year"] == year]` (line 60). -/
def filterByYear (year : String) (recs : List TileRecord) : List TileRecord :=
  recs.filter (fun r => r.year == year)

/-- The first access to the filtered record list,
`recs[0]["filename"]` at line 69.  On an empty list Python raises
`IndexError: list index out of range`; the script has no handler, so the
run aborts with that message. -/
def sampleRecord (recs : List TileRecord) : Except String TileRecord :=
  match recs with
  | [] => Except.error "list index out of range"
  | r :: _ => Except.ok r

/-- Lines 58-69 of `main`: year selection, the year filter, and the access
to the sample record that opens the reference raster. -/
def cohortAndSample (yearFilter : Option String) (recs : List TileRecord) :
    Except String (String × List TileRecord × TileRecord) :=
  let year := selectYear yearFilter recs
  let sel := filterByYear year recs
  match sampleRecord sel with
  | Except.error e => Except.error e
  | Except.ok r => Except.ok (year, sel, r)

/-- The six coefficients of a rasterio affine transform, in the order
`transform.a, transform.b, transform.c, transform.d, transform.e,
transform.f` used at line 27.  Float64 values are modelled exactly in `ℚ`. -/
structure AffineTransform where
  a : ℚ
  b : ℚ
  c : ℚ
  d : ℚ
  e : ℚ
  f : ℚ
deriving DecidableEq, Repr

/-- The metadata captured from one raster by `rasterio.open` (lines 72-76):
shape, transform, CRS, pixel dtype and nodata value.  CRS and dtype are
abstracted as strings, nodata as an optional rational. -/
structure TileGeom where
  height : Nat
  width : Nat
  transform : AffineTransform
  crs : String
  dtype : String
  nodata : Option ℚ
deriving DecidableEq, Repr

/-- The tolerance `eps = 1e-12` of `compute_coords` (line 28). -/
def epsTol : ℚ := 1 / 10 ^ 12

/-- `north_up = abs(b) < eps and abs(d) < eps` (line 29). -/
def northUp (t : AffineTransform) : Bool :=
  decide (|t.b| < epsTol) && decide (|t.d| < epsTol)

/-- The warning text printed at line 31. -/
def rotWarning : String := "⚠️  WARNING: grid is rotated/sheared; ArcGIS prefers north-up."

/-- The messages printed by `compute_coords`: one warning when the grid is
not north-up, none otherwise (lines 29-31). -/
def coordWarnings (t : AffineTransform) : List String :=
  if northUp t then [] else [rotWarning]

/-- Pixel-center x-coordinate `c + (i + 0.5) * a + 0.5 * b` (line 32). -/
def xCoord (t : AffineTransform) (i : Nat) : ℚ :=
  t.c + ((i : ℚ) + 1 / 2) * t.a + 1 / 2 * t.b

/-- Pixel-center y-coordinate `f + (j + 0.5) * e + 0.5 * d` (line 33). -/
def yCoord (t : AffineTransform) (j : Nat) : ℚ :=
  t.f + ((j : ℚ) + 1 / 2) * t.e + 1 / 2 * t.d

/-- The x-vector `c + (np.arange(w) + 0.5) * a + 0.5 * b` (line 32). -/
def compute_x (t : AffineTransform) (w : Nat) : List ℚ :=
  (List.range w).map (xCoord t)

/-- The y-vector `f + (np.arange(h) + 0.5) * e + 0.5 * d` (line 33). -/
def compute_y (t : AffineTransform) (h : Nat) : List ℚ :=
  (List.range h).map (yCoord t)

/-- One comparison of the consistency loop (lines 82-85): CRS first, then
transform, then shape, each `sys.exit` naming the offending filename. -/
def geomCheckMsg (ref : TileGeom) (g : TileGeom) (fn : String) : Option String :=
  if g.crs ≠ ref.crs then some ("CRS mismatch " ++ fn)
  else if g.transform ≠ ref.transform then some ("Transform mismatch " ++ fn)
  else if (g.height, g.width) ≠ (ref.height, ref.width) then some ("Shape mismatch " ++ fn)
  else none

/-- Stage 4 of `main` (lines 80-87): every record is re-opened and compared
against the reference geometry; the first mismatch aborts the run. -/
def checkConsistency (ref : TileGeom) : List (String × TileGeom) → Except String Unit
  | [] => Except.ok ()
  | (fn, g) :: rest =>
      match geomCheckMsg ref g fn with
      | some m => Except.error m
      | none => checkConsistency ref rest

/-- Agreement on exactly the properties the consistency loop compares. -/
def geomMatches (ref g : TileGeom) : Prop :=
  g.crs = ref.crs ∧ g.transform = ref.transform ∧ g.height = ref.height ∧ g.width = ref.width

/-- The key test of the dict comprehension at line 91: both components of
the `(gender, age)` key must agree. -/
def keyMatch (g a : String) (r : TileRecord) : Bool :=
  r.gender == g && r.age == a

/-- `mat = {(r["gender"], r["age"]): r["filename"] for r in recs}` followed
by `mat.get((g, a))` (lines 91 and 97).  A Python dict comprehension
inserts in iteration order, a later key overwriting an earlier one, which
is exactly what the left fold computes. -/
def lookupMat (recs : List TileRecord) (g a : String) : Option String :=
  recs.foldl (fun acc r => if keyMatch g a r then some r.filename else acc) none

/-- A node of the dask graph: either `da.zeros((h,w), dtype=dtype, ...)`
(line 100) or `da.from_delayed(dask.delayed(reader)(), shape=(h,w),
dtype=dtype)` for one file (lines 104-111). -/
inductive Slab where
  | zerosS (h w : Nat) (dtype : String)
  | delayedRead (fn : String) (h w : Nat) (dtype : String)
deriving DecidableEq, Repr

/-- Running a deferred slab: the zero placeholder yields an all-zero
matrix of its shape; the deferred read yields the file's pixels from the
environment `env` (the `src.read(1)` of the reader closure, line 106). -/
def Slab.materialize (env : String → Nat → Nat → ℚ) : Slab → List (List ℚ)
  | Slab.zerosS h w _ => List.replicate h (List.replicate w 0)
  | Slab.delayedRead fn h w _ => (List.range h).map (fun i => (List.range w).map (env fn i))

/-- The dtype tag a slab was constructed with. -/
def Slab.dtypeOf : Slab → String
  | Slab.zerosS _ _ dt => dt
  | Slab.delayedRead _ _ _ dt => dt

/-- The body of the double loop of stage 5 (lines 97-111): look the pair up
in the tile matrix and build either the zero placeholder or the deferred
read.  `if not fn` treats both an absent key and an empty filename as
missing, exactly like Python truthiness. -/
def slabFor (recs : List TileRecord) (g a : String) (h w : Nat) (dtype : String) : Slab :=
  match lookupMat recs g a with
  | none => Slab.zerosS h w dtype
  | some fn => if fn == "" then Slab.zerosS h w dtype else Slab.delayedRead fn h w dtype

/-- The nested loops of stage 5 (lines 93-114): genders outer, ages inner.
The resulting list of lists of slabs is the computation graph of the
4-D stacked dask array `data`. -/
def buildTiles (genders ages : List String) (recs : List TileRecord)
    (h w : Nat) (dtype : String) : List (List Slab) :=
  genders.map (fun g => ages.map (fun a => slabFor recs g a h w dtype))

/-- The cartesian product traversed by the double loop, in loop order. -/
def allPairs : List String → List String → List (String × String)
  | [], _ => []
  | g :: gs, ages => ages.map (fun a => (g, a)) ++ allPairs gs ages

/-- The pairs for which line 99 prints a `MISSING tile` notice: those whose
lookup is absent (or an empty filename, by Python truthiness). -/
def missingPairs (genders ages : List String) (recs : List TileRecord) :
    List (String × String) :=
  (allPairs genders ages).filter
    (fun p =>
      match lookupMat recs p.1 p.2 with
      | none => true
      | some fn => fn == "")

/-- The text of the missing-tile notice at line 99. -/
def missingMsg (g a : String) : String :=
  "    MISSING tile gender=" ++ g ++ ", age=" ++ a

/-- All messages printed by the grid-building stage, in order: exactly one
informational notice per missing pair, and nothing else — in particular no
message about duplicate `(gender, age)` pairs. -/
def buildWarnings (genders ages : List String) (recs : List TileRecord) : List String :=
  (missingPairs genders ages recs).map (fun p => missingMsg p.1 p.2)

lemma parseRecords_aux (files : List String) :
    ∀ acc : List TileRecord × List String,
      files.foldl
          (fun acc fn =>
            match parseFilename fn with
            | some r => (acc.1 ++ [r], acc.2)
            | none => acc) acc =
        (acc.1 ++ files.filterMap parseFilename, acc.2) := by
  induction files with
  | nil => intro acc; simp
  | cons fn rest ih =>
      intro acc
      cases hp : parseFilename fn with
      | none => simp [List.foldl_cons, hp, ih, List.filterMap_cons]
      | some r => simp [List.foldl_cons, hp, ih, List.filterMap_cons]

lemma parseRecords_eq (files : List String) :
    parseRecords files = (files.filterMap parseFilename, []) := by
  unfold parseRecords
  rw [parseRecords_aux]
  simp

lemma lookupMat_aux (g a : String) (recs : List TileRecord) :
    ∀ init : Option String,
      recs.foldl (fun acc r => if keyMatch g a r then some r.filename else acc) init =
        match recs.reverse.find? (keyMatch g a) with
        | some r => some r.filename
        | none => init := by
  induction recs with
  | nil => intro init; simp
  | cons r rest ih =>
      intro init
      rw [List.foldl_cons, ih, List.reverse_cons, List.find?_append]
      cases hfind : rest.reverse.find? (keyMatch g a) with
      | some x => simp [Option.or]
      | none =>
          cases hp : keyMatch g a r with
          | true => simp [List.find?, hp, Option.or]
          | false => simp [List.find?, hp, Option.or]

lemma lookupMat_eq_find (recs : List TileRecord) (g a : String) :
    lookupMat recs g a =
      match recs.reverse.find? (keyMatch g a) with
      | some r => some r.filename
      | none => none := by
  unfold lookupMat
  rw [lookupMat_aux]

lemma geomCheckMsg_eq_none (ref g : TileGeom) (fn : String) :
    geomCheckMsg ref g fn = none ↔ geomMatches ref g := by
  unfold geomCheckMsg geomMatches
  by_cases hc : g.crs = ref.crs
  · by_cases ht : g.transform = ref.transform
    · by_cases hh : g.height = ref.height
      · by_cases hw : g.width = ref.width
        · simp [hc, ht, hh, hw, Prod.mk.injEq]
        · simp [hc, ht, hh, hw, Prod.mk.injEq]
      · simp [hc, ht, hh, Prod.mk.injEq]
    · simp [hc, ht]
  · simp [hc]

lemma geomCheckMsg_some (ref g : TileGeom) (fn : String) (m : String)
    (h : geomCheckMsg ref g fn = some m) :
    (g.crs ≠ ref.crs ∧ m = "CRS mismatch " ++ fn) ∨
    (g.transform ≠ ref.transform ∧ m = "Transform mismatch " ++ fn) ∨
    ((g.height, g.width) ≠ (ref.height, ref.width) ∧ m = "Shape mismatch " ++ fn) := by
  unfold geomCheckMsg at h
  split_ifs at h with hc ht hs
  · exact Or.inl ⟨hc, (Option.some_inj.mp h).symm⟩
  · exact Or.inr (Or.inl ⟨ht, (Option.some_inj.mp h).symm⟩)
  · exact Or.inr (Or.inr ⟨hs, (Option.some_inj.mp h).symm⟩)

lemma checkConsistency_ok_iff (ref : TileGeom) (tiles : List (String × TileGeom)) :
    checkConsistency ref tiles = Except.ok () ↔ ∀ p ∈ tiles, geomMatches ref p.2 := by
  induction tiles with
  | nil => simp [checkConsistency]
  | cons p rest ih =>
      obtain ⟨fn, g⟩ := p
      unfold checkConsistency
      cases hm : geomCheckMsg ref g fn with
      | some m =>
          have hnm : ¬ geomMatches ref g := by
            intro hmatch
            rw [← geomCheckMsg_eq_none ref g fn] at hmatch
            rw [hm] at hmatch
            cases hmatch
          simp only [List.mem_cons]
          constructor
          · intro h; cases h
          · intro h
            exact absurd (h (fn, g) (Or.inl rfl)) hnm
      | none =>
          have hmatch : geomMatches ref g := (geomCheckMsg_eq_none ref g fn).mp hm
          simp only [List.mem_cons]
          rw [ih]
          constructor
          · intro h q hq
            rcases hq with hq | hq
            · rw [hq]; exact hmatch
            · exact h q hq
          · intro h q hq
            exact h q (Or.inr hq)

lemma compute_x_getElem (t : AffineTransform) (w i : Nat) (hi : i < w) :
    (compute_x t w)[i]? = some (xCoord t i) := by
  unfold compute_x
  rw [List.getElem?_map, List.getElem?_range hi]
  rfl

lemma compute_y_getElem (t : AffineTransform) (h j : Nat) (hj : j < h) :
    (compute_y t h)[j]? = some (yCoord t j) := by
  unfold compute_y
  rw [List.getElem?_map, List.getElem?_range hj]
  rfl

lemma xCoord_succ_sub (t : AffineTransform) (i : Nat) :
    xCoord t (i + 1) - xCoord t i = t.a := by
  unfold xCoord
  push_cast
  ring

/-- Claim C3: a filename of the shape `<3 letters><sep><letter><sep><2
digits><sep><4 digits>[<sep><anything>].tif` parses — amended: the single
category-axis-1 letter must come from the class `[fmt]` of `STRICT_REGEX`
(case-insensitively); an arbitrary letter is not accepted. -/
theorem C3_pattern_parses
    (c1 c2 c3 s1 g s2 a1 a2 s3 y1 y2 y3 y4 s4 : Char) (q : List Char)
    (h1 : isLetterB c1 = true) (h2 : isLetterB c2 = true) (h3 : isLetterB c3 = true)
    (h4 : isSepB s1 = true) (h5 : isGenderB g = true) (h6 : isSepB s2 = true)
    (h7 : isDigitB a1 = true) (h8 : isDigitB a2 = true) (h9 : isSepB s3 = true)
    (h10 : isDigitB y1 = true) (h11 : isDigitB y2 = true) (h12 : isDigitB y3 = true)
    (h13 : isDigitB y4 = true) (hs4 : isSepB s4 = true)
    (hnl : q.all (fun ch => ch != '\n') = true) :
    (parseFilename (plainName c1 c2 c3 s1 g s2 a1 a2 s3 y1 y2 y3 y4)).isSome = true ∧
    (q ≠ [] →
      (parseFilename (qualName c1 c2 c3 s1 g s2 a1 a2 s3 y1 y2 y3 y4 s4 q)).isSome = true) := by
  constructor
  · unfold plainName
    rw [parse_mk c1 c2 c3 s1 g s2 a1 a2 s3 y1 y2 y3 y4 ['.', 't', 'i', 'f']
      h1 h2 h3 h4 h5 h6 h7 h8 h9 h10 h11 h12 h13 tailOk_ext]
    rfl
  · intro hq
    unfold qualName
    rw [parse_mk c1 c2 c3 s1 g s2 a1 a2 s3 y1 y2 y3 y4 (s4 :: (q ++ ['.', 't', 'i', 'f']))
      h1 h2 h3 h4 h5 h6 h7 h8 h9 h10 h11 h12 h13 (tailOk_qual s4 q hs4 hq hnl)]
    rfl

/-- Claim C3 counterexample: `abc_q_00_2025.tif` has exactly the claimed
shape with the letter `q` as the category-axis-1 code, yet the classifier
rejects it — the regex class `[fmt]` does not accept an arbitrary letter. -/
theorem C3_counterexample :
    isLetterB 'q' = true ∧ parseFilename "abc_q_00_2025.tif" = none := by decide

/-- Claim C3 witness: both a plain and a qualified conforming name parse. -/
theorem C3_witness :
    (parseFilename (plainName 't' 'c' 'd' '_' 'f' '_' '0' '0' '_' '2' '0' '2' '5')).isSome
      = true ∧
    (parseFilename
        (qualName 't' 'c' 'd' '-' 'M' '-' '0' '1' '-' '2' '0' '2' '0' '-' ['C', 'N'])).isSome
      = true := by
  refine ⟨?_, ?_⟩
  · exact (C3_pattern_parses 't' 'c' 'd' '_' 'f' '_' '0' '0' '_' '2' '0' '2' '5' '_' []
      (by decide) (by decide) (by decide) (by decide) (by decide) (by decide) (by decide)
      (by decide) (by decide) (by decide) (by decide) (by decide) (by decide) (by decide)
      (by decide)).1
  · exact (C3_pattern_parses 't' 'c' 'd' '-' 'M' '-' '0' '1' '-' '2' '0' '2' '0' '-'
      ['C', 'N']
      (by decide) (by decide) (by decide) (by decide) (by decide) (by decide) (by decide)
      (by decide) (by decide) (by decide) (by decide) (by decide) (by decide) (by decide)
      (by decide)).2 (by decide)

/-- Claim C5: building a conforming filename from a `(country, axis1,
axis2, period)` tuple and parsing it returns the tuple's data: axis-1
lower-cased, the axis-2 and period digit strings literally (leading zeros
preserved) — amended: this holds when the axis-1 letter is in the class
`[fmt]` (case-insensitively), the only letters `STRICT_REGEX` accepts. -/
theorem C5_roundtrip
    (c1 c2 c3 s1 g s2 a1 a2 s3 y1 y2 y3 y4 : Char)
    (h1 : isLetterB c1 = true) (h2 : isLetterB c2 = true) (h3 : isLetterB c3 = true)
    (h4 : isSepB s1 = true) (h5 : isGenderB g = true) (h6 : isSepB s2 = true)
    (h7 : isDigitB a1 = true) (h8 : isDigitB a2 = true) (h9 : isSepB s3 = true)
    (h10 : isDigitB y1 = true) (h11 : isDigitB y2 = true) (h12 : isDigitB y3 = true)
    (h13 : isDigitB y4 = true) :
    parseFilename (plainName c1 c2 c3 s1 g s2 a1 a2 s3 y1 y2 y3 y4) =
      some { filename := plainName c1 c2 c3 s1 g s2 a1 a2 s3 y1 y2 y3 y4,
             gender := g.toLower.toString, age := String.mk [a1, a2],
             year := String.mk [y1, y2, y3, y4] } := by
  unfold plainName
  exact parse_mk c1 c2 c3 s1 g s2 a1 a2 s3 y1 y2 y3 y4 ['.', 't', 'i', 'f']
    h1 h2 h3 h4 h5 h6 h7 h8 h9 h10 h11 h12 h13 tailOk_ext

/-- Claim C5 counterexample: the conforming name `tcd_x_01_1999.tif` built
from the tuple `(tcd, x, 01, 1999)` does not round-trip — the classifier
returns no record at all, because `x` is outside the class `[fmt]`. -/
theorem C5_counterexample :
    isLetterB 'x' = true ∧ parseFilename "tcd_x_01_1999.tif" = none := by decide

/-- Claim C5 witness: `(tcd, F, 07, 2025)` round-trips with the axis-1
code lower-cased and the digit strings preserved. -/
theorem C5_witness :
    parseFilename (plainName 't' 'c' 'd' '_' 'F' '_' '0' '7' '_' '2' '0' '2' '5') =
      some { filename := plainName 't' 'c' 'd' '_' 'F' '_' '0' '7' '_' '2' '0' '2' '5',
             gender := "f", age := "07", year := "2025" } :=
  C5_roundtrip 't' 'c' 'd' '_' 'F' '_' '0' '7' '_' '2' '0' '2' '5'
    (by decide) (by decide) (by decide) (by decide) (by decide) (by decide) (by decide)
    (by decide) (by decide) (by decide) (by decide) (by decide) (by decide)

/-- Claim C4: `compute_coords` returns the pixel-center vectors
`x_i = c + (i+0.5)a + 0.5b` (length `cols`) and
`y_j = f + (j+0.5)e + 0.5d` (length `rows`), the x-coordinates always form
an arithmetic sequence of common difference `a`, and — amended — for
`b = d = 0` they are strictly increasing when `a > 0` and strictly
decreasing when `a < 0` (for `a = 0` the sequence is constant, so the
unqualified "strictly increasing" of the claim fails). -/
theorem C4_coord_formula (t : AffineTransform) (h w : Nat) :
    (compute_x t w).length = w ∧ (compute_y t h).length = h ∧
    (∀ i, i < w → (compute_x t w)[i]? = some (xCoord t i)) ∧
    (∀ j, j < h → (compute_y t h)[j]? = some (yCoord t j)) ∧
    (∀ i : Nat, xCoord t (i + 1) - xCoord t i = t.a) ∧
    (t.b = 0 → t.d = 0 →
      (0 < t.a → StrictMono (xCoord t)) ∧ (t.a < 0 → StrictAnti (xCoord t))) := by
  refine ⟨by simp [compute_x], by simp [compute_y],
    fun i hi => compute_x_getElem t w i hi,
    fun j hj => compute_y_getElem t h j hj,
    fun i => xCoord_succ_sub t i, ?_⟩
  intro _ _
  constructor
  · intro ha
    apply strictMono_nat_of_lt_succ
    intro n
    have hd := xCoord_succ_sub t n
    linarith
  · intro ha
    apply strictAnti_nat_of_succ_lt
    intro n
    have hd := xCoord_succ_sub t n
    linarith

/-- The degenerate axis-aligned transform with `a = 0` used to refute the
unconditional strict monotonicity of claim C4. -/
def tDegenerate : AffineTransform := { a := 0, b := 0, c := 0, d := 0, e := -1, f := 0 }

/-- Claim C4 counterexample: for the transform with coefficients
`(0, 0, 0, 0, -1, 0)` — axis-aligned, `b = d = 0`, `a` not negative — and
`cols = 2`, the x-vector is `[0, 0]`: its entries are equal, so it is
neither strictly increasing nor covered by the `a < 0` escape clause. -/
theorem C4_counterexample :
    tDegenerate.b = 0 ∧ tDegenerate.d = 0 ∧ ¬ tDegenerate.a < 0 ∧
    compute_x tDegenerate 2 = [0, 0] ∧
    ¬ xCoord tDegenerate 0 < xCoord tDegenerate 1 := by
  refine ⟨rfl, rfl, by norm_num [tDegenerate], ?_, by norm_num [xCoord, tDegenerate]⟩
  show (List.range 2).map (xCoord tDegenerate) = [0, 0]
  norm_num [List.range_succ, xCoord, tDegenerate]

/-- Claim C4 witness: a concrete transform with `a = 2 > 0`. -/
theorem C4_witness :
    (compute_x { a := 2, b := 0, c := 10, d := 0, e := -1, f := 50 } 3)[1]? =
      some (xCoord { a := 2, b := 0, c := 10, d := 0, e := -1, f := 50 } 1) ∧
    StrictMono (xCoord { a := 2, b := 0, c := 10, d := 0, e := -1, f := 50 }) :=
  ⟨(C4_coord_formula { a := 2, b := 0, c := 10, d := 0, e := -1, f := 50 } 1 3).2.2.1 1
      (by decide),
   ((C4_coord_formula { a := 2, b := 0, c := 10, d := 0, e := -1, f := 50 } 1 3).2.2.2.2.2
      rfl rfl).1 (by norm_num)⟩

/-- Claim C8: the coordinate formula is applied whether or not the grid is
sheared, the rotation warning is emitted exactly once for a sheared
transform, and never when `b = d = 0` — amended: the warning fires when
`|b| ≥ 1e-12` (or `|d| ≥ 1e-12`), the tolerance test of line 29, not for
every `b ≠ 0`; a shear smaller than the tolerance goes unwarned. -/
theorem C8_shear_warning (t : AffineTransform) (w : Nat) :
    (epsTol ≤ |t.b| ∨ epsTol ≤ |t.d| → coordWarnings t = [rotWarning]) ∧
    (t.b = 0 → t.d = 0 → coordWarnings t = []) ∧
    (∀ i, i < w → (compute_x t w)[i]? = some (xCoord t i)) := by
  refine ⟨?_, ?_, fun i hi => compute_x_getElem t w i hi⟩
  · intro hshear
    have hnu : northUp t = false := by
      unfold northUp
      rcases hshear with hb | hd
      · have : ¬ |t.b| < epsTol := not_lt.mpr hb
        simp [this]
      · have : ¬ |t.d| < epsTol := not_lt.mpr hd
        simp [this]
    simp [coordWarnings, hnu]
  · intro hb hd
    have hnu : northUp t = true := by
      unfold northUp
      rw [hb, hd]
      norm_num [epsTol]
    simp [coordWarnings, hnu]

/-- A transform whose shear coefficient `b = 1e-13` is nonzero but smaller
than the tolerance of line 29. -/
def tTinyShear : AffineTransform :=
  { a := 1, b := 1 / 10 ^ 13, c := 0, d := 0, e := -1, f := 0 }

/-- Claim C8 counterexample: `b = 1e-13 ≠ 0`, yet no rotation warning is
emitted, because line 29 tests `abs(b) < 1e-12`, not `b != 0`. -/
theorem C8_counterexample :
    tTinyShear.b ≠ 0 ∧ coordWarnings tTinyShear = [] := by
  have hb : |tTinyShear.b| < epsTol := by
    have hval : tTinyShear.b = 1 / 10 ^ 13 := rfl
    rw [hval, abs_of_pos (by norm_num)]
    norm_num [epsTol]
  have hd : |tTinyShear.d| < epsTol := by
    have hval : tTinyShear.d = 0 := rfl
    rw [hval, abs_zero]
    norm_num [epsTol]
  have hnu : northUp tTinyShear = true := by simp [northUp, hb, hd]
  exact ⟨by norm_num [tTinyShear], by simp [coordWarnings, hnu]⟩

/-- Claim C8 witness: a genuinely sheared transform (`b = 1`) warns exactly
once, and an axis-aligned one not at all. -/
theorem C8_witness :
    coordWarnings { a := 1, b := 1, c := 0, d := 0, e := -1, f := 0 } = [rotWarning] ∧
    coordWarnings { a := 1, b := 0, c := 0, d := 0, e := -1, f := 0 } = [] :=
  ⟨(C8_shear_warning { a := 1, b := 1, c := 0, d := 0, e := -1, f := 0 } 0).1
      (Or.inl (by norm_num [epsTol])),
   (C8_shear_warning { a := 1, b := 0, c := 0, d := 0, e := -1, f := 0 } 0).2.1 rfl rfl⟩

/-- Claim C2: the consistency check succeeds (no error, no warning — its
only output channel is the three `sys.exit` messages) when every tile
matches the reference on CRS, transform and shape; any mismatch aborts the
run, and the abort message names the offending file together with the
mismatched property. -/
theorem C2_geometry_validation (ref : TileGeom) (tiles : List (String × TileGeom)) :
    ((∀ p ∈ tiles, geomMatches ref p.2) → checkConsistency ref tiles = Except.ok ()) ∧
    ((∃ p ∈ tiles, ¬ geomMatches ref p.2) →
      ∃ msg, checkConsistency ref tiles = Except.error msg) ∧
    (∀ msg, checkConsistency ref tiles = Except.error msg →
      ∃ p ∈ tiles,
        (p.2.crs ≠ ref.crs ∧ msg = "CRS mismatch " ++ p.1) ∨
        (p.2.transform ≠ ref.transform ∧ msg = "Transform mismatch " ++ p.1) ∨
        ((p.2.height, p.2.width) ≠ (ref.height, ref.width) ∧
          msg = "Shape mismatch " ++ p.1)) := by
  refine ⟨fun h => (checkConsistency_ok_iff ref tiles).mpr h, ?_, ?_⟩
  · intro hbad
    cases hc : checkConsistency ref tiles with
    | error e => exact ⟨e, rfl⟩
    | ok u =>
        obtain ⟨p, hp, hnm⟩ := hbad
        cases u
        exact absurd ((checkConsistency_ok_iff ref tiles).mp hc p hp) hnm
  · induction tiles with
    | nil => intro msg h; cases h
    | cons p rest ih =>
        obtain ⟨fn, g⟩ := p
        intro msg h
        unfold checkConsistency at h
        revert h
        cases hm : geomCheckMsg ref g fn with
        | some m =>
            intro h
            cases h
            exact ⟨(fn, g), List.mem_cons_self _ _, geomCheckMsg_some ref g fn msg hm⟩
        | none =>
            intro h
            obtain ⟨q, hq, hprop⟩ := ih msg h
            exact ⟨q, List.mem_cons_of_mem _ hq, hprop⟩

/-- A reference geometry shared by the validation witnesses. -/
def refGeomW : TileGeom :=
  { height := 2, width := 3, transform := { a := 1, b := 0, c := 0, d := 0, e := -1, f := 50 },
    crs := "EPSG:4326", dtype := "float32", nodata := some (-99999) }

/-- Claim C2 witness: an all-matching pair of tiles validates silently,
and a CRS-mismatching tile aborts with some message. -/
theorem C2_witness :
    checkConsistency refGeomW [("a.tif", refGeomW), ("b.tif", refGeomW)] = Except.ok () ∧
    ∃ msg,
      checkConsistency refGeomW [("bad.tif", { refGeomW with crs := "EPSG:3857" })] =
        Except.error msg :=
  ⟨(C2_geometry_validation refGeomW [("a.tif", refGeomW), ("b.tif", refGeomW)]).1
      (by
        intro p hp
        rcases List.mem_cons.mp hp with h | h
        · rw [h]; exact ⟨rfl, rfl, rfl, rfl⟩
        · rcases List.mem_cons.mp h with h2 | h2
          · rw [h2]; exact ⟨rfl, rfl, rfl, rfl⟩
          · cases h2),
   (C2_geometry_validation refGeomW [("bad.tif", { refGeomW with crs := "EPSG:3857" })]).2.1
      ⟨("bad.tif", { refGeomW with crs := "EPSG:3857" }), List.mem_cons_self _ _,
        fun hmatch => by
          have hcrs := hmatch.1
          simp [refGeomW] at hcrs⟩⟩

/-- Claim C10: the consistency check errors exactly when some tile differs
from the reference in CRS, transform or shape; pixel dtype and nodata are
never consulted — rewriting every tile's (or the reference's) dtype and
nodata arbitrarily leaves the validation result unchanged. -/
theorem C10_dtype_nodata_ignored (ref : TileGeom) (tiles : List (String × TileGeom))
    (dt : String → TileGeom → String) (nd : String → TileGeom → Option ℚ)
    (d0 : String) (n0 : Option ℚ) :
    (checkConsistency ref tiles = Except.ok () ↔ ∀ p ∈ tiles, geomMatches ref p.2) ∧
    checkConsistency ref
        (tiles.map (fun p => (p.1, { p.2 with dtype := dt p.1 p.2, nodata := nd p.1 p.2 }))) =
      checkConsistency ref tiles ∧
    checkConsistency { ref with dtype := d0, nodata := n0 } tiles =
      checkConsistency ref tiles := by
  refine ⟨checkConsistency_ok_iff ref tiles, ?_, ?_⟩
  · induction tiles with
    | nil => rfl
    | cons p rest ih =>
        obtain ⟨fn, g⟩ := p
        show checkConsistency ref
            ((fn, { g with dtype := dt fn g, nodata := nd fn g }) ::
              rest.map (fun p => (p.1, { p.2 with dtype := dt p.1 p.2, nodata := nd p.1 p.2 })))
          = checkConsistency ref ((fn, g) :: rest)
        unfold checkConsistency
        have hsame : geomCheckMsg ref { g with dtype := dt fn g, nodata := nd fn g } fn =
            geomCheckMsg ref g fn := rfl
        rw [hsame]
        cases hm : geomCheckMsg ref g fn with
        | some m => rfl
        | none => exact ih
  · induction tiles with
    | nil => rfl
    | cons p rest ih =>
        obtain ⟨fn, g⟩ := p
        unfold checkConsistency
        have hsame : geomCheckMsg { ref with dtype := d0, nodata := n0 } g fn =
            geomCheckMsg ref g fn := rfl
        rw [hsame]
        cases hm : geomCheckMsg ref g fn with
        | some m => rfl
        | none => exact ih

/-- Claim C10 witness: a tile agreeing with the reference on CRS,
transform and shape but with different dtype and nodata passes validation. -/
theorem C10_witness :
    checkConsistency refGeomW
        [("t.tif", { refGeomW with dtype := "uint8", nodata := none })] = Except.ok () :=
  (C10_dtype_nodata_ignored refGeomW
      [("t.tif", { refGeomW with dtype := "uint8", nodata := none })]
      (fun _ g => g.dtype) (fun _ g => g.nodata) "int16" none).1.mpr
    (by
      intro p hp
      rcases List.mem_cons.mp hp with h | h
      · rw [h]; exact ⟨rfl, rfl, rfl, rfl⟩
      · cases h)

lemma slabFor_cases (recs : List TileRecord) (g a : String) (h w : Nat) (dtype : String) :
    slabFor recs g a h w dtype = Slab.zerosS h w dtype ∨
    ∃ fn, slabFor recs g a h w dtype = Slab.delayedRead fn h w dtype := by
  unfold slabFor
  cases lookupMat recs g a with
  | none => exact Or.inl rfl
  | some fn =>
      by_cases hfn : fn == ""
      · simp [hfn]
      · simp only [hfn]
        exact Or.inr ⟨fn, by simp⟩

lemma slab_materialize_dims (s : Slab) (env : String → Nat → Nat → ℚ) (h w : Nat)
    (dtype : String)
    (hs : s = Slab.zerosS h w dtype ∨ ∃ fn, s = Slab.delayedRead fn h w dtype) :
    (s.materialize env).length = h ∧ ∀ line ∈ s.materialize env, line.length = w := by
  rcases hs with hs | ⟨fn, hs⟩
  · subst hs
    refine ⟨by simp [Slab.materialize], ?_⟩
    intro line hline
    rw [List.eq_of_mem_replicate hline]
    simp
  · subst hs
    refine ⟨by simp [Slab.materialize], ?_⟩
    intro line hline
    simp only [Slab.materialize, List.mem_map] at hline
    obtain ⟨i, _, rfl⟩ := hline
    simp

lemma slabFor_dtype (recs : List TileRecord) (g a : String) (h w : Nat) (dtype : String) :
    (slabFor recs g a h w dtype).dtypeOf = dtype := by
  rcases slabFor_cases recs g a h w dtype with hs | ⟨fn, hs⟩ <;> rw [hs] <;> rfl

/-- Claim C1: whatever the record set, the stacked grid has outer length
`|axis-1|`, every row has length `|axis-2|`, every slab materializes to a
matrix of the reference shape `(rows, cols)` with the reference dtype tag,
and the slab of every missing combination is the deferred zero placeholder,
which materializes to the all-zero matrix of the reference shape. -/
theorem C1_grid_shape_zero_fill (genders ages : List String) (recs : List TileRecord)
    (h w : Nat) (dtype : String) (env : String → Nat → Nat → ℚ) :
    (buildTiles genders ages recs h w dtype).length = genders.length ∧
    (∀ row ∈ buildTiles genders ages recs h w dtype, row.length = ages.length) ∧
    (∀ row ∈ buildTiles genders ages recs h w dtype, ∀ s ∈ row,
      s.dtypeOf = dtype ∧ (s.materialize env).length = h ∧
        ∀ line ∈ s.materialize env, line.length = w) ∧
    (∀ g ∈ genders, ∀ a ∈ ages, lookupMat recs g a = none →
      slabFor recs g a h w dtype = Slab.zerosS h w dtype ∧
        (slabFor recs g a h w dtype).materialize env =
          List.replicate h (List.replicate w 0)) := by
  refine ⟨by simp [buildTiles], ?_, ?_, ?_⟩
  · intro row hrow
    simp only [buildTiles, List.mem_map] at hrow
    obtain ⟨g, _, rfl⟩ := hrow
    simp
  · intro row hrow s hs
    simp only [buildTiles, List.mem_map] at hrow
    obtain ⟨g, _, rfl⟩ := hrow
    simp only [List.mem_map] at hs
    obtain ⟨a, _, rfl⟩ := hs
    exact ⟨slabFor_dtype recs g a h w dtype,
      slab_materialize_dims _ env h w dtype (slabFor_cases recs g a h w dtype)⟩
  · intro g _ a _ hmiss
    have hz : slabFor recs g a h w dtype = Slab.zerosS h w dtype := by
      unfold slabFor
      rw [hmiss]
    exact ⟨hz, by rw [hz]; rfl⟩

/-- The single record used by the grid-builder witness: only `(f, 00)` has
a backing file, so `(m, 00)` is a missing combination. -/
def recsW : List TileRecord :=
  [{ filename := "tcd_f_00_2025.tif", gender := "f", age := "00", year := "2025" }]

/-- A concrete pixel environment for the witnesses. -/
def envW : String → Nat → Nat → ℚ := fun _ i j => (i : ℚ) + j

/-- Claim C1 witness: with genders `[f, m]`, ages `[00]` and only the
`(f, 00)` tile present, the grid is 2 × 1 and the `(m, 00)` slab is the
zero placeholder materializing to the 2 × 3 zero matrix. -/
theorem C1_witness :
    (buildTiles ["f", "m"] ["00"] recsW 2 3 "float32").length = 2 ∧
    slabFor recsW "m" "00" 2 3 "float32" = Slab.zerosS 2 3 "float32" ∧
    (slabFor recsW "m" "00" 2 3 "float32").materialize envW =
      List.replicate 2 (List.replicate 3 0) := by
  have H := C1_grid_shape_zero_fill ["f", "m"] ["00"] recsW 2 3 "float32" envW
  have hm := H.2.2.2 "m" (by decide) "00" (by decide) (by decide)
  exact ⟨H.1, hm.1, hm.2⟩

/-- Claim C9: when several records share a `(gender, age)` key, the dict
comprehension of line 91 keeps the filename of the record occurring last;
the resulting slab is the deferred read of exactly that file, no slab of an
earlier duplicate can appear at that position, and the pair is not a
missing pair, so the build stage logs nothing about it — the stage has no
error channel and its only messages are missing-tile notices. -/
theorem C9_duplicate_last_wins (recs : List TileRecord) (genders ages : List String)
    (g a : String) (h w : Nat) (dtype : String) (rl : TileRecord)
    (hdup : 2 ≤ (recs.filter (keyMatch g a)).length)
    (hlast : recs.reverse.find? (keyMatch g a) = some rl)
    (hfn : rl.filename ≠ "") :
    lookupMat recs g a = some rl.filename ∧
    slabFor recs g a h w dtype = Slab.delayedRead rl.filename h w dtype ∧
    (∀ r ∈ recs, keyMatch g a r = true → r.filename ≠ rl.filename →
      slabFor recs g a h w dtype ≠ Slab.delayedRead r.filename h w dtype) ∧
    (g, a) ∉ missingPairs genders ages recs := by
  have hlook : lookupMat recs g a = some rl.filename := by
    rw [lookupMat_eq_find, hlast]
  have hbeq : (rl.filename == "") = false := beq_eq_false_iff_ne.mpr hfn
  have hslab : slabFor recs g a h w dtype = Slab.delayedRead rl.filename h w dtype := by
    unfold slabFor
    rw [hlook]
    simp [hbeq]
  refine ⟨hlook, hslab, ?_, ?_⟩
  · intro r _ _ hne heq
    rw [hslab] at heq
    injection heq with hinj
    exact hne hinj.symm
  · intro hmem
    have hcond := (List.mem_filter.mp hmem).2
    simp only [hlook, hbeq] at hcond
    cases hcond

/-- Two records sharing the key `(f, 00)`: the earlier one carries
qualifier `a`, the later one qualifier `b`. -/
def recsDup : List TileRecord :=
  [{ filename := "tcd_f_00_2025_a.tif", gender := "f", age := "00", year := "2025" },
   { filename := "tcd_f_00_2025_b.tif", gender := "f", age := "00", year := "2025" }]

/-- Claim C9 witness: with two `(f, 00)` records the tile matrix keeps
the later filename and the slab reads it. -/
theorem C9_witness :
    lookupMat recsDup "f" "00" = some "tcd_f_00_2025_b.tif" ∧
    slabFor recsDup "f" "00" 2 3 "float32" =
      Slab.delayedRead "tcd_f_00_2025_b.tif" 2 3 "float32" ∧
    ("f", "00") ∉ missingPairs ["f"] ["00"] recsDup := by
  have H := C9_duplicate_last_wins recsDup ["f"] ["00"] "f" "00" 2 3 "float32"
    { filename := "tcd_f_00_2025_b.tif", gender := "f", age := "00", year := "2025" }
    (by decide) (by decide) (by decide)
  exact ⟨H.1, H.2.1, H.2.2.2⟩

/-- Claim C6: filtering a non-empty record set by an explicitly configured
four-digit period that no record carries yields the empty set and the run
aborts — amended: the abort is the unhandled `IndexError` raised by
`recs[0]` at line 69 (the script has no empty-set check after the year
filter), and its message `list index out of range` does not contain a
single character of the configured period, so it does not identify the
offending input. -/
theorem C6_empty_period (recs : List TileRecord) (y : String)
    (hne : recs ≠ []) (habs : ∀ r ∈ recs, r.year ≠ y)
    (hy4 : y.toList.length = 4) (hdig : y.toList.all Char.isDigit = true) :
    filterByYear y recs = [] ∧
    cohortAndSample (some y) recs = Except.error "list index out of range" ∧
    ∀ c ∈ y.toList, c ∉ "list index out of range".toList := by
  have hfilter : filterByYear y recs = [] := by
    unfold filterByYear
    rw [List.filter_eq_nil_iff]
    intro r hr
    simp [habs r hr]
  refine ⟨hfilter, ?_, ?_⟩
  · unfold cohortAndSample selectYear
    dsimp only
    rw [hfilter]
    rfl
  · intro c hc hmem
    have hcd : c.isDigit = true := by
      rw [List.all_eq_true] at hdig
      exact hdig c hc
    have hnd : ∀ ch ∈ "list index out of range".toList, ch.isDigit = false := by decide
    rw [hnd c hmem] at hcd
    cases hcd

/-- A record set whose only year is 2024, used against the configured
period 2025. -/
def recsYear : List TileRecord :=
  [{ filename := "tcd_f_00_2024_CN.tif", gender := "f", age := "00", year := "2024" }]

/-- Claim C6 counterexample: with the period `2025` configured and only a
`2024` record present, the run aborts with `list index out of range` — a
message sharing no character with `2025`, hence not identifying the
configured period as the claim requires. -/
theorem C6_counterexample :
    cohortAndSample (some "2025") recsYear = Except.error "list index out of range" ∧
    ("2025".toList.all
      (fun c => !("list index out of range".toList.contains c))) = true :=
  ⟨rfl, by decide⟩

/-- Claim C6 witness: the amended theorem applied to `recsYear` and the
absent period `2025`. -/
theorem C6_witness :
    filterByYear "2025" recsYear = [] ∧
    cohortAndSample (some "2025") recsYear = Except.error "list index out of range" := by
  have H := C6_empty_period recsYear "2025" (by decide) (by decide) (by decide) (by decide)
  exact ⟨H.1, H.2.1⟩

/-- Claim C7: a `.tif` file failing the naming pattern is excluded and the
run proceeds with the parsed records — amended: the exclusion is silent;
the parse loop of lines 45-54 prints no warning and keeps no skip count,
so the unparsed file set is never surfaced. -/
theorem C7_unparsed_silent (files : List String) (f : String)
    (hmem : f ∈ files) (htif : isTifName f = true) (hbad : parseFilename f = none)
    (hsome : files.filterMap parseFilename ≠ []) :
    (parseRecords files).1 = files.filterMap parseFilename ∧
    (parseRecords files).2 = [] ∧
    parseStage files = Except.ok (files.filterMap parseFilename) ∧
    ∀ r ∈ files.filterMap parseFilename, r.filename ≠ f := by
  have hpr := parseRecords_eq files
  refine ⟨by rw [hpr], by rw [hpr], ?_, ?_⟩
  · unfold parseStage
    rw [hpr]
    simp [hsome]
  · intro r hr heq
    obtain ⟨fn, hfn, hparse⟩ := List.mem_filterMap.mp hr
    have hname : r.filename = fn := parseFilename_filename hparse
    rw [heq] at hname
    rw [← hname] at hparse
    rw [hbad] at hparse
    cases hparse

/-- A scanned file list with one conforming and one malformed `.tif` name. -/
def filesMixed : List String := ["tcd_f_00_2025.tif", "zzz.tif"]

/-- Claim C7 counterexample: `zzz.tif` has the expected extension and
fails the pattern, yet the parse stage emits no warning at all (its
message list is empty) while excluding the file — the claimed non-fatal
warning about unparsed files does not exist in the code. -/
theorem C7_counterexample :
    isTifName "zzz.tif" = true ∧ parseFilename "zzz.tif" = none ∧
    (parseRecords filesMixed).2 = [] ∧
    (parseRecords filesMixed).1 =
      [{ filename := "tcd_f_00_2025.tif", gender := "f", age := "00", year := "2025" }] := by
  decide

/-- Claim C7 witness: the amended theorem applied to `filesMixed` and its
malformed member `zzz.tif`. -/
theorem C7_witness :
    (parseRecords filesMixed).2 = [] ∧
    parseStage filesMixed = Except.ok (filesMixed.filterMap parseFilename) := by
  have H := C7_unparsed_silent filesMixed "zzz.tif" (by decide) (by decide) (by decide)
    (by decide)
  exact ⟨H.2.1, H.2.2.1⟩
